import Mathlib

/-!
# Verification of the marketplace auth / catalog subsystem

Shallow embedding of the marketplace Go backend.  Database tables are
modelled as Lean lists of rows, `time.Now()` as an explicit `now : Int`
parameter (Unix seconds), and external collaborators (the JWT library's
`jwt.Parse`, the bcrypt hasher, the go-playground validator's opaque
format checks, `uuid.NewString`) as oracle function parameters.  Infra
failures of the SQL driver itself (connection loss, scan errors) are
outside the state model: the repository functions below are the
semantics of their SQL statements on the table state.
-/

set_option autoImplicit false

namespace Marketplace

/-- Error model from `pkg/errors/apperror.go`: sentinel errors
`ErrNotFound`/`ErrInternal`, plain errors, and `AppError` carrying a
code, a message and a wrapped error (`Unwrap`).  `NewAppError(code,
msg, nil)` is `appErrorNil`, `NewAppError(code, msg, err)` with a
non-nil `err` is `appError`; `wrapf` models `fmt.Errorf("...: %w", err)`. -/
inductive GoError where
  | errNotFound : GoError
  | errInternal : GoError
  | simple (msg : String) : GoError
  | appErrorNil (code message : String) : GoError
  | appError (code message : String) (wrapped : GoError) : GoError
  | wrapf (msg : String) (wrapped : GoError) : GoError
deriving Repr, DecidableEq

/-- `errors.Is(err, appErrors.ErrNotFound)`: walks the `Unwrap` chain. -/
def GoError.isNotFound : GoError → Bool
  | .errNotFound => true
  | .appError _ _ e => e.isNotFound
  | .wrapf _ e => e.isNotFound
  | _ => false

/-- `entity.User` (src/unnamed/part_009). -/
structure User where
  id : String
  userType : String
  username : String
  passwordHash : String
  email : String
  createdAt : Int
  updatedAt : Int
deriving Repr, DecidableEq

/-- `entity.CustomerProfile`: embeds `User`; `sql.NullString`/`sql.NullTime`
become `Option`. -/
structure CustomerProfile extends User where
  firstName : Option String
  lastName : Option String
  phone : Option String
  dateBirth : Option Int
  address : Option String
deriving Repr, DecidableEq

/-- `entity.SellerProfile`: embeds `User`; `sql.NullFloat64` becomes
`Option Rat` (the rating is only stored and compared, never computed
with, so exact rationals are a faithful carrier). -/
structure SellerProfile extends User where
  companyName : Option String
  rating : Option Rat
deriving Repr, DecidableEq

/-- `entity.RefreshToken` (src/unnamed/part_008). -/
structure RefreshToken where
  userID : String
  token : String
  expiresAt : Int
  isRevoked : Bool
  createdAt : Int
  updatedAt : Int
deriving Repr, DecidableEq

/-! ## Token repository (src/internal/adapter/postgres/token/token_repository.go)

The `tokens` table is a list of rows; `user_id` is its primary key. -/

/-- `tokenRepository.GetRefreshTokenByUserID`: `SELECT ... FROM tokens
WHERE user_id = $1`; `pgx.ErrNoRows` is mapped to `appErrors.ErrNotFound`. -/
def getRefreshTokenByUserID (store : List RefreshToken) (userID : String) :
    Except GoError RefreshToken :=
  match store.find? (fun r => r.userID == userID) with
  | some t => .ok t
  | none => .error .errNotFound

/-- The row update performed by `ON CONFLICT (user_id) DO UPDATE SET
token, expires_at, is_revoked, updated_at = EXCLUDED...` (note:
`created_at` and `user_id` of the existing row are kept). -/
def upsertRow (t : RefreshToken) (r : RefreshToken) : RefreshToken :=
  if r.userID == t.userID then
    { r with token := t.token, expiresAt := t.expiresAt,
             isRevoked := t.isRevoked, updatedAt := t.updatedAt }
  else r

/-- `tokenRepository.UpsertRefreshToken`: `INSERT INTO tokens ... ON
CONFLICT (user_id) DO UPDATE ...`.  On a key hit the existing row is
rewritten in place, otherwise the row is appended. -/
def upsertRefreshToken (store : List RefreshToken) (t : RefreshToken) :
    List RefreshToken :=
  if store.any (fun r => r.userID == t.userID) then
    store.map (upsertRow t)
  else store ++ [t]

/-- Number of rows the `tokens` table holds for a given user. -/
def countForUser (store : List RefreshToken) (uid : String) : Nat :=
  (store.filter (fun r => r.userID == uid)).length

/-! ## JWT manager (src/internal/adapter/jwt/jwt_repository_impl.go)

`jwt.Parse` together with the HMAC key function is an oracle
`parse : String → Except GoError ParsedJwt`; a wrong signing method,
a bad signature or an expired `exp` claim all surface as a parse error,
exactly as in `golang-jwt/v5`. -/

/-- The two claims the code reads from `jwt.MapClaims`; `some s` means
the claim is present and is a string (the type assertion
`claims["user_id"].(string)` succeeds). -/
structure MapClaims where
  userId : Option String
  userType : Option String
deriving Repr, DecidableEq

/-- Result of a successful `jwt.Parse`: the `Valid` flag, whether the
cast `jwtToken.Claims.(jwt.MapClaims)` succeeds, and the claims. -/
structure ParsedJwt where
  valid : Bool
  claimsOk : Bool
  claims : MapClaims
deriving Repr, DecidableEq

def invalidCredentialsErr : GoError :=
  .appErrorNil "INVALID_CREDENTIALS" "invalid credentials"

def refreshMismatchErr (userID : String) : GoError :=
  .appErrorNil "JWT_VALIDATION" ("refresh token mismatch for user " ++ userID)

def refreshExpiredErr (userID : String) : GoError :=
  .appErrorNil "JWT_VALIDATION" ("refresh token expired for user " ++ userID)

def refreshRevokedErr (userID : String) : GoError :=
  .appErrorNil "JWT_VALIDATION" ("refresh token revoked for user " ++ userID)

/-- `jwtManager.ValidateAccessToken`.  The receiver's `tokenRepo` (the
`store` argument) is in scope but never consulted, exactly as in the
source. -/
def validateAccessToken (parse : String → Except GoError ParsedJwt)
    (store : List RefreshToken) (tokenString : String) : Option GoError :=
  match parse tokenString with
  | .error e => some (.appError "JWT_VALIDATION" "failed to parse access token" e)
  | .ok t =>
    if !t.valid then
      some (.appErrorNil "JWT_VALIDATION" "invalid access token")
    else if !t.claimsOk then
      some (.appErrorNil "JWT_VALIDATION" "failed to parse access token claims")
    else
      match t.claims.userId with
      | none => some (.appErrorNil "JWT_VALIDATION" "user_id claim is missing")
      | some _ =>
        match t.claims.userType with
        | none => some (.appErrorNil "JWT_VALIDATION" "user_type claim is missing")
        | some _ => none

/-- `jwtManager.ValidateRefreshToken`: parse/shape checks as for access
tokens, then the store lookup keyed by the embedded `user_id`, then the
mismatch, expiry (`time.Now().After(ExpiresAt)`), and revoked checks in
that order. -/
def validateRefreshToken (parse : String → Except GoError ParsedJwt)
    (now : Int) (store : List RefreshToken) (tokenString : String) : Option GoError :=
  match parse tokenString with
  | .error e => some (.appError "JWT_VALIDATION" "failed to parse refresh token" e)
  | .ok t =>
    if !t.valid then
      some (.appErrorNil "JWT_VALIDATION" "invalid refresh token")
    else if !t.claimsOk then
      some (.appErrorNil "JWT_VALIDATION" "failed to parse refresh token claims")
    else
      match t.claims.userId with
      | none => some (.appErrorNil "JWT_VALIDATION" "user_id claim is missing or invalid")
      | some userID =>
        match t.claims.userType with
        | none => some (.appErrorNil "JWT_VALIDATION" "user_type claim is missing or invalid")
        | some _ =>
          match getRefreshTokenByUserID store userID with
          | .error e => some (.appError "JWT_DB" "failed to fetch refresh token" e)
          | .ok dbToken =>
            if dbToken.token ≠ tokenString then some (refreshMismatchErr userID)
            else if now > dbToken.expiresAt then some (refreshExpiredErr userID)
            else if dbToken.isRevoked then some (refreshRevokedErr userID)
            else none

/-- Library guarantee of `golang-jwt/v5`: when `jwt.Parse` returns a nil
error the token is `Valid` and its claims are the default `MapClaims`
(so the cast succeeds).  Parse oracles are assumed to respect this. -/
def JwtLibSound (parse : String → Except GoError ParsedJwt) : Prop :=
  ∀ s t, parse s = .ok t → t.valid = true ∧ t.claimsOk = true

/-- 30 days in seconds, `30 * 24 * time.Hour` of the source. -/
def refreshTokenTTLSecs : Int := 30 * 24 * 60 * 60

/-- `jwtManager.GenerateRefreshToken`, success path: the freshly signed
string (`signedToken`, produced by the signing oracle) is upserted as
the user's single token-store row.  Returns the token and the new
store. -/
def generateRefreshToken (signedToken : String) (now : Int)
    (store : List RefreshToken) (user : User) : String × List RefreshToken :=
  (signedToken,
   upsertRefreshToken store
     { userID := user.id, token := signedToken,
       expiresAt := now + refreshTokenTTLSecs, isRevoked := false,
       createdAt := now, updatedAt := now })

/-! ## Auth usecase (src/internal/usecase/auth/auth_usecase.go)

The repositories, hasher and token generators the usecase calls through
interfaces are oracle fields of `AuthDeps`; `register` and `login` are
the usecase methods with the go-playground validator abstracted as a
`validate` oracle (the affected claims quantify over shape-valid
requests only). -/

/-- `strings.ToLower` on the ASCII alphabet (Go's is Unicode-aware;
the role strings concerned are ASCII). -/
def goToLower (s : String) : String := ⟨s.data.map Char.toLower⟩

/-- `strings.TrimSpace` (ASCII whitespace). -/
def goTrimSpace (s : String) : String :=
  ⟨((s.data.dropWhile Char.isWhitespace).reverse.dropWhile Char.isWhitespace).reverse⟩

/-- `dto.RegisterRequest`. -/
structure RegisterRequest where
  username : String
  email : String
  password : String
  userType : String
deriving Repr, DecidableEq

/-- `dto.LoginRequest`. -/
structure LoginRequest where
  email : String
  username : String
  password : String
  userType : String
deriving Repr, DecidableEq

/-- `dto.UpdateAuthRequest`. -/
structure UpdateAuthRequest where
  email : String
  username : String
  oldPassword : String
  newPassword : String
  refreshToken : String
deriving Repr, DecidableEq

/-- `dto.AuthResponse`. -/
structure AuthResponse where
  accessToken : String
  refreshToken : String
deriving Repr, DecidableEq

/-- The collaborators `authUsecase` reaches through interfaces:
per-role profile lookups, the bcrypt hasher (`compareHashPassword
hash password` returns `some err` on mismatch, as bcrypt does), the
JWT manager's generators, and `userRepo.Create`. -/
structure AuthDeps where
  custGetByEmail : String → Except GoError CustomerProfile
  custGetByUsername : String → Except GoError CustomerProfile
  sellGetByEmail : String → Except GoError SellerProfile
  sellGetByUsername : String → Except GoError SellerProfile
  generateHashPassword : String → Except GoError String
  compareHashPassword : String → String → Option GoError
  generateAccessToken : User → Except GoError String
  generateRefreshToken : User → Except GoError String
  userCreate : User → Option GoError

/-- The uniqueness probe sequence of `Register` for one role: the
email probe first (`nil` error means a hit → duplicate email), then the
username probe; after the switch `existingErr` holds the *username*
probe's error, and only that error is tested against `ErrNotFound`. -/
def uniquenessOutcome {α β : Type} (byEmail : Except GoError α)
    (byUsername : Except GoError β) : Option GoError :=
  match byEmail with
  | .ok _ => some (.appErrorNil "DUPLICATE" "email already exists")
  | .error _ =>
    match byUsername with
    | .ok _ => some (.appErrorNil "DUPLICATE" "username already exists")
    | .error e2 =>
      if e2.isNotFound then none
      else some (.appError "REPO" "uniqueness check failed" e2)

/-- The tail of `Register` after the uniqueness checks: hash the
password, create the `Identity`, issue the token pair. -/
def registerPersist (deps : AuthDeps) (newUUID : String) (now : Int)
    (userType : String) (req : RegisterRequest) : Except GoError AuthResponse :=
  match deps.generateHashPassword req.password with
  | .error e => .error (.appError "HASHING" "failed to hash password" e)
  | .ok hashed =>
    let u : User :=
      { id := newUUID, userType := userType, username := req.username,
        passwordHash := hashed, email := req.email, createdAt := now, updatedAt := now }
    match deps.userCreate u with
    | some e => .error (.appError "USER_CREATE_FAIL" "failed to create user" e)
    | none =>
      match deps.generateAccessToken u with
      | .error e => .error (.appError "JWT_GENERATION" "failed to generate access token" e)
      | .ok access =>
        match deps.generateRefreshToken u with
        | .error e => .error (.appError "JWT_GENERATION" "failed to generate refresh token" e)
        | .ok refresh => .ok { accessToken := access, refreshToken := refresh }

/-- `authUsecase.Register`: validate, normalize the role, per-role
uniqueness probes, then persist. -/
def register (deps : AuthDeps) (validate : RegisterRequest → Option GoError)
    (newUUID : String) (now : Int) (req : RegisterRequest) : Except GoError AuthResponse :=
  match validate req with
  | some e => .error (.appError "VALIDATION" "invalid registration data" e)
  | none =>
    let userType := goToLower (goTrimSpace req.userType)
    if userType = "customer" then
      match uniquenessOutcome (deps.custGetByEmail req.email) (deps.custGetByUsername req.username) with
      | some e => .error e
      | none => registerPersist deps newUUID now userType req
    else if userType = "seller" then
      match uniquenessOutcome (deps.sellGetByEmail req.email) (deps.sellGetByUsername req.username) with
      | some e => .error e
      | none => registerPersist deps newUUID now userType req
    else .error (.appErrorNil "INVALID_TYPE" "unsupported user_type")

/-- The shared tail of `Login`: build the `entity.User` from the found
profile (the password hash is not copied into it) and issue the pair. -/
def loginIssue (deps : AuthDeps) (u : User) : Except GoError AuthResponse :=
  match deps.generateAccessToken u with
  | .error e => .error (.appError "JWT_GENERATION" "failed to generate access token" e)
  | .ok access =>
    match deps.generateRefreshToken u with
    | .error e => .error (.appError "JWT_GENERATION" "failed to generate refresh token" e)
    | .ok refresh => .ok { accessToken := access, refreshToken := refresh }

/-- `authUsecase.Login`: validate, normalize the role, reject an
ambiguous or missing identifier, look up by role + identifier, compare
the password hash, issue a fresh pair. -/
def login (deps : AuthDeps) (validate : LoginRequest → Option GoError)
    (req : LoginRequest) : Except GoError AuthResponse :=
  match validate req with
  | some e => .error (.appError "VALIDATION" "invalid login data" e)
  | none =>
    let userType := goToLower (goTrimSpace req.userType)
    if userType ≠ "customer" ∧ userType ≠ "seller" then
      .error (.appErrorNil "INVALID_TYPE" "unsupported user_type")
    else
      let username := goTrimSpace req.username
      let email := goTrimSpace req.email
      if username ≠ "" ∧ email ≠ "" then
        .error (.appErrorNil "VALIDATION" "provide either username or email, not both")
      else if username = "" ∧ email = "" then
        .error (.appErrorNil "VALIDATION" "email or username is required")
      else
        let identifier := if username ≠ "" then username else email
        if userType = "customer" then
          match (if username ≠ "" then deps.custGetByUsername identifier
                 else deps.custGetByEmail identifier) with
          | .error e =>
            if e.isNotFound then .error invalidCredentialsErr
            else .error (.appError "REPO" "failed to fetch user" e)
          | .ok c =>
            match deps.compareHashPassword c.passwordHash req.password with
            | some _ => .error invalidCredentialsErr
            | none =>
              loginIssue deps
                { id := c.id, userType := userType, username := c.username,
                  passwordHash := "", email := c.email,
                  createdAt := c.createdAt, updatedAt := c.updatedAt }
        else
          match (if username ≠ "" then deps.sellGetByUsername identifier
                 else deps.sellGetByEmail identifier) with
          | .error e =>
            if e.isNotFound then .error invalidCredentialsErr
            else .error (.appError "REPO" "failed to fetch user" e)
          | .ok s =>
            match deps.compareHashPassword s.passwordHash req.password with
            | some _ => .error invalidCredentialsErr
            | none =>
              loginIssue deps
                { id := s.id, userType := userType, username := s.username,
                  passwordHash := "", email := s.email,
                  createdAt := s.createdAt, updatedAt := s.updatedAt }

/-! ## User repository (src/unnamed/part_010, `userRepository`)

The `users` table is a list of rows keyed by `id`. -/

/-- `userRepository.GetByID`: `SELECT ... FROM users WHERE id = $1`;
`pgx.ErrNoRows` becomes `NewAppError("NOT_FOUND", ..., ErrNotFound)`. -/
def userRepoGetByID (tbl : List User) (userID : String) : Except GoError User :=
  match tbl.find? (fun u => u.id == userID) with
  | some u => .ok u
  | none => .error (.appError "NOT_FOUND" "user not found" .errNotFound)

/-- `userRepository.UpdateAuth`: `UPDATE users SET username,
password_hash, email WHERE id = $1` (note: `updated_at` is not touched);
zero rows affected becomes `NewAppError("NOT_UPDATED", ..., ErrNotFound)`. -/
def userRepoUpdateAuth (tbl : List User) (id username email password : String) :
    Except GoError (List User) :=
  if tbl.any (fun u => u.id == id) then
    .ok (tbl.map (fun u =>
      if u.id == id then { u with username := username, email := email, passwordHash := password }
      else u))
  else .error (.appError "NOT_UPDATED" "update returned 0 affected rows" .errNotFound)

/-- `userRepository.Delete`: `DELETE FROM users WHERE id = $1` in a
transaction; zero rows affected becomes
`NewAppError("NOT_DELETED", ..., ErrNotFound)`. -/
def userRepoDelete (tbl : List User) (id : String) : Except GoError (List User) :=
  if tbl.any (fun u => u.id == id) then
    .ok (tbl.filter (fun u => u.id ≠ id))
  else .error (.appError "NOT_DELETED" "delete returned 0 affected rows" .errNotFound)

/-- The mutable state `UpdateAuth`/`DeleteUser` touches: the `users`
table and the `tokens` table. -/
structure AuthState where
  users : List User
  tokens : List RefreshToken
deriving Repr, DecidableEq

/-- `authUsecase.revokeRefreshToken`: fetch the row, treat `ErrNotFound`
as success, otherwise set `IsRevoked` and upsert. -/
def revokeRefreshToken (tokens : List RefreshToken) (now : Int) (userID : String) :
    Option GoError × List RefreshToken :=
  match getRefreshTokenByUserID tokens userID with
  | .error e => if e.isNotFound then (none, tokens) else (some e, tokens)
  | .ok t => (none, upsertRefreshToken tokens { t with isRevoked := true, updatedAt := now })

/-- The go-playground validation rules on `dto.UpdateAuthRequest`:
`email omitempty,email` (format via the `emailOk` oracle), `username
omitempty,min=3,max=50`, `old_password required_with=NewPassword`,
`new_password omitempty,min=8`, `refresh_token required`. -/
def validUpdateAuthRequest (emailOk : String → Bool) (req : UpdateAuthRequest) : Bool :=
  (req.email == "" || emailOk req.email) &&
  (req.username == "" || (decide (3 ≤ req.username.length) && decide (req.username.length ≤ 50))) &&
  (req.newPassword == "" || req.oldPassword != "") &&
  (req.newPassword == "" || decide (8 ≤ req.newPassword.length)) &&
  (req.refreshToken != "")

/-- `authUsecase.UpdateAuth`: validate the request, validate the
refresh token against the store, fetch the user, verify the old
password when a new one is requested, apply the partial update, then
best-effort revoke (a revoke failure is only logged). -/
def updateAuth (parse : String → Except GoError ParsedJwt) (emailOk : String → Bool)
    (compareHash : String → String → Option GoError)
    (genHash : String → Except GoError String)
    (now : Int) (st : AuthState) (tokenString userID : String)
    (req : UpdateAuthRequest) : Option GoError × AuthState :=
  if !(validUpdateAuthRequest emailOk req) then
    (some (.appError "VALIDATION" "invalid update data" (.simple "validator.ValidationErrors")), st)
  else
    match validateRefreshToken parse now st.tokens tokenString with
    | some e => (some (.appError "INVALID_TOKEN" "invalid refresh token" e), st)
    | none =>
      match userRepoGetByID st.users userID with
      | .error e => (some (.appError "NOT_FOUND" "user not found" e), st)
      | .ok userByID =>
        let hashRes : Except GoError String :=
          if req.newPassword ≠ "" then
            if req.oldPassword = "" then
              .error (.appErrorNil "VALIDATION" "old password required")
            else
              match compareHash userByID.passwordHash req.oldPassword with
              | some _ => .error (.appErrorNil "INVALID_CREDENTIALS" "old password incorrect")
              | none =>
                match genHash req.newPassword with
                | .error e => .error (.appError "HASHING" "failed to hash new password" e)
                | .ok h => .ok h
          else .ok userByID.passwordHash
        match hashRes with
        | .error e => (some e, st)
        | .ok newHash =>
          let email := if req.email ≠ "" then req.email else userByID.email
          let username := if req.username ≠ "" then req.username else userByID.username
          match userRepoUpdateAuth st.users userID username email newHash with
          | .error e => (some (.appError "UPDATE_FAILED" "failed to update user" e), st)
          | .ok users2 =>
            let (_, tokens2) := revokeRefreshToken st.tokens now userID
            (none, { users := users2, tokens := tokens2 })

/-- `authUsecase.DeleteUser`: best-effort revoke (an `ErrNotFound` from
it does not abort), then `userRepo.Delete`; an `ErrNotFound` from the
delete is surfaced as `NOT_FOUND`.  A successful delete cascades to the
user's `tokens` row (`ON DELETE CASCADE` in the schema). -/
def deleteUser (now : Int) (st : AuthState) (userID : String) :
    Option GoError × AuthState :=
  let revoked := revokeRefreshToken st.tokens now userID
  match revoked.1 with
  | some e =>
    if !e.isNotFound then
      (some (.wrapf "failed to revoke token" e), { st with tokens := revoked.2 })
    else
      match userRepoDelete st.users userID with
      | .error e2 =>
        if e2.isNotFound then
          (some (.appError "NOT_FOUND" "user not found" e2), { st with tokens := revoked.2 })
        else (some (.appError "DELETE_FAIL" "failed to delete user" e2), { st with tokens := revoked.2 })
      | .ok users2 =>
        (none, { users := users2, tokens := revoked.2.filter (fun t => t.userID ≠ userID) })
  | none =>
    match userRepoDelete st.users userID with
    | .error e2 =>
      if e2.isNotFound then
        (some (.appError "NOT_FOUND" "user not found" e2), { st with tokens := revoked.2 })
      else (some (.appError "DELETE_FAIL" "failed to delete user" e2), { st with tokens := revoked.2 })
    | .ok users2 =>
      (none, { users := users2, tokens := revoked.2.filter (fun t => t.userID ≠ userID) })

/-! ## Profile repositories and `UpdateProfile`

Customer rows (src/internal/adapter/postgres/customer) and seller rows
(src/unnamed/part_011) keyed by `user_id`; nullable columns are
`Option`. -/

/-- A row of the `customers` table. -/
structure CustomerRow where
  userID : String
  firstName : Option String
  lastName : Option String
  phone : Option String
  dateBirth : Option Int
  address : Option String
deriving Repr, DecidableEq

/-- A row of the `sellers` table. -/
structure SellerRow where
  userID : String
  companyName : Option String
  rating : Option Rat
deriving Repr, DecidableEq

/-- The state `UpdateProfile` touches. -/
structure ProfileState where
  users : List User
  customers : List CustomerRow
  sellers : List SellerRow
deriving Repr, DecidableEq

/-- `customerRepository.UpdateProfile`: one transaction, `UPDATE
customers SET first_name, last_name, phone, date_birth, address WHERE
user_id = $`, then `UPDATE users SET updated_at WHERE id = $` (no
rows-affected check on either). -/
def customerRepoUpdateProfile (st : ProfileState) (profile : CustomerProfile) : ProfileState :=
  { st with
    customers := st.customers.map (fun r =>
      if r.userID == profile.id then
        { r with firstName := profile.firstName, lastName := profile.lastName,
                 phone := profile.phone, dateBirth := profile.dateBirth,
                 address := profile.address }
      else r),
    users := st.users.map (fun u =>
      if u.id == profile.id then { u with updatedAt := profile.updatedAt } else u) }

/-- `sellerRepository.UpdateProfile`: one transaction, `UPDATE sellers
SET company_name, rating WHERE user_id = $`, then `UPDATE users SET
updated_at WHERE id = $`. -/
def sellerRepoUpdateProfile (st : ProfileState) (profile : SellerProfile) : ProfileState :=
  { st with
    sellers := st.sellers.map (fun r =>
      if r.userID == profile.id then
        { r with companyName := profile.companyName, rating := profile.rating }
      else r),
    users := st.users.map (fun u =>
      if u.id == profile.id then { u with updatedAt := profile.updatedAt } else u) }

/-- `dto.CustomerProfileRequest`. -/
structure CustomerProfileRequest where
  phone : String
  firstName : String
  lastName : String
  address : String
  dateBirth : String
deriving Repr, DecidableEq

/-- `dto.SellerProfileRequest` (`rating` is `float64` with validation
`omitempty,min=0,max=5`; see `SellerProfile.rating` on the carrier). -/
structure SellerProfileRequest where
  companyName : String
  rating : Rat
deriving Repr, DecidableEq

/-- The `payload any` argument of `UpdateProfile`: at the two call
sites it is one of the two DTOs, and the dynamic type assertion in the
usecase is a match on this closed union. -/
inductive ProfilePayload where
  | customer (req : CustomerProfileRequest)
  | seller (req : SellerProfileRequest)
deriving Repr, DecidableEq

/-- go-playground rules on `dto.CustomerProfileRequest`: `phone
omitempty,e164` (format via oracle), name fields `omitempty,min=2,max=50`,
`date_birth omitempty,datetime=2006-01-02` (format via oracle). -/
def validCustomerProfileRequest (phoneOk dateOk : String → Bool)
    (req : CustomerProfileRequest) : Bool :=
  (req.phone == "" || phoneOk req.phone) &&
  (req.firstName == "" || (decide (2 ≤ req.firstName.length) && decide (req.firstName.length ≤ 50))) &&
  (req.lastName == "" || (decide (2 ≤ req.lastName.length) && decide (req.lastName.length ≤ 50))) &&
  (req.dateBirth == "" || dateOk req.dateBirth)

/-- go-playground rules on `dto.SellerProfileRequest`: `company_name
omitempty,min=2,max=100`, `rating omitempty,min=0,max=5` (`omitempty`
skips the bounds when the rating is its zero value). -/
def validSellerProfileRequest (req : SellerProfileRequest) : Bool :=
  (req.companyName == "" || (decide (2 ≤ req.companyName.length) && decide (req.companyName.length ≤ 100))) &&
  (req.rating == 0 || (decide (0 ≤ req.rating) && decide (req.rating ≤ 5)))

/-- `authUsecase.UpdateProfile`: dispatch on the normalized role,
reject a payload of the other role's type, validate, build the entity —
customer nullables are set only for non-empty fields, while the seller
`Rating` is built with `Valid: true` unconditionally — then update via
the role's repository.  `parseDate` is the `time.Parse("2006-01-02", ·)`
oracle. -/
def updateProfile (phoneOk dateOk : String → Bool)
    (parseDate : String → Except GoError Int) (now : Int) (st : ProfileState)
    (userID userType : String) (payload : ProfilePayload) :
    Option GoError × ProfileState :=
  let userType := goToLower (goTrimSpace userType)
  if userType = "customer" then
    match payload with
    | .seller _ =>
      (some (.appError "INVALID_PAYLOAD" "invalid customer payload" (.simple "type mismatch")), st)
    | .customer req =>
      if !(validCustomerProfileRequest phoneOk dateOk req) then
        (some (.appError "VALIDATION" "invalid customer profile data" (.simple "validator.ValidationErrors")), st)
      else
        let base : CustomerProfile :=
          { id := userID, userType := "", username := "", passwordHash := "",
            email := "", createdAt := 0, updatedAt := now,
            phone := if req.phone ≠ "" then some req.phone else none,
            firstName := if req.firstName ≠ "" then some req.firstName else none,
            lastName := if req.lastName ≠ "" then some req.lastName else none,
            address := if req.address ≠ "" then some req.address else none,
            dateBirth := none }
        if req.dateBirth ≠ "" then
          match parseDate req.dateBirth with
          | .error e => (some (.appError "INVALID_FORMAT" "invalid date format" e), st)
          | .ok dt => (none, customerRepoUpdateProfile st { base with dateBirth := some dt })
        else (none, customerRepoUpdateProfile st base)
  else if userType = "seller" then
    match payload with
    | .customer _ =>
      (some (.appError "INVALID_PAYLOAD" "invalid seller payload" (.simple "type mismatch")), st)
    | .seller req =>
      if !(validSellerProfileRequest req) then
        (some (.appError "VALIDATION" "invalid seller profile data" (.simple "validator.ValidationErrors")), st)
      else
        let profile : SellerProfile :=
          { id := userID, userType := "", username := "", passwordHash := "",
            email := "", createdAt := 0, updatedAt := now,
            companyName := if req.companyName ≠ "" then some req.companyName else none,
            rating := some req.rating }
        (none, sellerRepoUpdateProfile st profile)
  else (some (.appErrorNil "INVALID_TYPE" "unsupported user type"), st)

/-! ## Catalog (src/unnamed/part_006 `productUsecase`, src/unnamed/part_004
`categoryUsecase`, src/internal/adapter/postgres/product) -/

/-- `entity.Product`. -/
structure Product where
  id : String
  sellerID : String
  title : String
  description : String
  price : Rat
  createdAt : Int
  updatedAt : Int
  categoryID : String
  isActive : Bool
deriving Repr, DecidableEq

/-- `entity.Category`. -/
structure Category where
  id : String
  name : String
  createdAt : Int
  updatedAt : Int
deriving Repr, DecidableEq

/-- The projection `dto.ProductResponse` used by `productUsecase.List`. -/
structure ProductResponse where
  sellerID : String
  categoryID : String
  title : String
  price : Rat
deriving Repr, DecidableEq

/-- `dto.CategoryDTO` as projected by `categoryUsecase.List`. -/
structure CategoryDTO where
  categoryID : String
  name : String
deriving Repr, DecidableEq

/-- The limit clamp both List usecases apply: outside `[0, 100]` the
limit is reset to the default `40`. -/
def clampLimit (limit : Int) : Int :=
  if limit < 0 ∨ limit > 100 then 40 else limit

/-- The offset clamp both List usecases apply: a negative offset
becomes `0`. -/
def clampOffset (offset : Int) : Int :=
  if offset < 0 then 0 else offset

def productToResponse (p : Product) : ProductResponse :=
  { sellerID := p.sellerID, categoryID := p.categoryID, title := p.title, price := p.price }

def categoryToDTO (c : Category) : CategoryDTO :=
  { categoryID := c.id, name := c.name }

/-- `productUsecase.List`: reject an empty category id, clamp the
paging inputs, call the adapter, map rows to the response projection. -/
def productUsecaseList (adapter : String → Int → Int → Except GoError (List Product))
    (categoryID : String) (limit offset : Int) : Except GoError (List ProductResponse) :=
  if categoryID = "" then .error (.appErrorNil "INVALID_INPUT" "category id is empty")
  else
    match adapter categoryID (clampLimit limit) (clampOffset offset) with
    | .error e => .error (.appError "LIST_ERR" "failed list products" e)
    | .ok products => .ok (products.map productToResponse)

/-- `categoryUsecase.List`: clamp the paging inputs, call the adapter,
map rows to DTOs. -/
def categoryUsecaseList (adapter : Int → Int → Except GoError (List Category))
    (limit offset : Int) : Except GoError (List CategoryDTO) :=
  match adapter (clampLimit limit) (clampOffset offset) with
  | .error e => .error (.appError "LIST_ERR" "failed list categories" e)
  | .ok categories => .ok (categories.map categoryToDTO)

/-- `productRepository.Update`: `UPDATE products SET title, description,
price, updated_at, category_id, is_active WHERE id = $` in a transaction;
zero rows affected is only logged as a warning — the transaction commits
and `nil` is returned. -/
def productRepoUpdate (tbl : List Product) (p : Product) :
    Option GoError × List Product :=
  (none, tbl.map (fun r =>
    if r.id == p.id then
      { r with title := p.title, description := p.description, price := p.price,
               updatedAt := p.updatedAt, categoryID := p.categoryID,
               isActive := p.isActive }
    else r))

/-- `productRepository.Delete`: `DELETE FROM products WHERE id = $` in a
transaction; zero rows affected is only logged as a warning — the
transaction commits and `nil` is returned. -/
def productRepoDelete (tbl : List Product) (id : String) :
    Option GoError × List Product :=
  (none, tbl.filter (fun r => r.id ≠ id))

/-! ## Concrete fixtures used to instantiate the theorems -/

/-- A concrete customer profile row. -/
def fixtureCustomer : CustomerProfile :=
  { id := "u1", userType := "customer", username := "alice123", passwordHash := "H",
    email := "a@x.com", createdAt := 0, updatedAt := 0,
    firstName := none, lastName := none, phone := none, dateBirth := none,
    address := none }

/-- Collaborators for which every probe misses and every external call
succeeds. -/
def fixtureDeps : AuthDeps :=
  { custGetByEmail := fun _ => .error .errNotFound
    custGetByUsername := fun _ => .error .errNotFound
    sellGetByEmail := fun _ => .error .errNotFound
    sellGetByUsername := fun _ => .error .errNotFound
    generateHashPassword := fun p => .ok ("h:" ++ p)
    compareHashPassword := fun _ _ => none
    generateAccessToken := fun _ => .ok "acc"
    generateRefreshToken := fun _ => .ok "ref"
    userCreate := fun _ => none }

/-- Like `fixtureDeps` but the customer email probe hits. -/
def fixtureDepsDupEmail : AuthDeps :=
  { fixtureDeps with custGetByEmail := fun _ => .ok fixtureCustomer }

/-- Like `fixtureDeps` but the customer email probe fails with the
internal (non-not-found) error. -/
def fixtureDepsEmailProbeDown : AuthDeps :=
  { fixtureDeps with custGetByEmail := fun _ => .error .errInternal }

/-- A concrete shape-valid registration request. -/
def fixtureRegisterReq : RegisterRequest :=
  { username := "alice123", email := "a@x.com", password := "longenough",
    userType := "customer" }

/-- A concrete identity row. -/
def fixtureUser : User :=
  { id := "u1", userType := "customer", username := "alice123", passwordHash := "H",
    email := "a@x.com", createdAt := 0, updatedAt := 0 }

/-- A concrete token-store row for `fixtureUser`, holding token string
`"T"`, unexpired at time `0`, not revoked. -/
def fixtureToken : RefreshToken :=
  { userID := "u1", token := "T", expiresAt := 100, isRevoked := false,
    createdAt := 0, updatedAt := 0 }

/-- A parse oracle accepting exactly the string `"T"` with the claims
of `fixtureUser`. -/
def fixtureParse : String → Except GoError ParsedJwt := fun s =>
  if s = "T" then .ok ⟨true, true, ⟨some "u1", some "customer"⟩⟩
  else .error (.simple "bad signature")

/-- A concrete auth state: one identity row, one token row. -/
def fixtureAuthState : AuthState :=
  { users := [fixtureUser], tokens := [fixtureToken] }

/-! ## Helper lemmas on the token store -/

theorem upsertRow_userID (t r : RefreshToken) : (upsertRow t r).userID = r.userID := by
  unfold upsertRow; split <;> rfl

theorem countForUser_map_upsertRow (t : RefreshToken) (store : List RefreshToken)
    (uid : String) :
    countForUser (store.map (upsertRow t)) uid = countForUser store uid := by
  unfold countForUser
  induction store with
  | nil => rfl
  | cons h tl ih =>
    cases hc : (h.userID == uid) with
    | true => simp [List.filter_cons, upsertRow_userID, hc, ih]
    | false => simp [List.filter_cons, upsertRow_userID, hc, ih]

theorem countForUser_append (s1 s2 : List RefreshToken) (uid : String) :
    countForUser (s1 ++ s2) uid = countForUser s1 uid + countForUser s2 uid := by
  unfold countForUser
  simp [List.filter_append]

theorem countForUser_eq_zero_of_not_any (store : List RefreshToken) (key : String)
    (h : store.any (fun r => r.userID == key) = false) :
    countForUser store key = 0 := by
  unfold countForUser
  rw [List.length_eq_zero, List.filter_eq_nil_iff]
  intro a ha
  have := List.any_eq_false.mp h a ha
  simpa using this

theorem countForUser_upsert_le (store : List RefreshToken) (t : RefreshToken)
    (uid : String) (h : countForUser store uid ≤ 1) :
    countForUser (upsertRefreshToken store t) uid ≤ 1 := by
  unfold upsertRefreshToken
  split
  · rw [countForUser_map_upsertRow]; exact h
  · next hany =>
    rw [countForUser_append]
    by_cases hc : t.userID = uid
    · subst hc
      have h0 : countForUser store t.userID = 0 :=
        countForUser_eq_zero_of_not_any store t.userID (by simpa using hany)
      have h1 : countForUser [t] t.userID ≤ 1 := by simp [countForUser]
      omega
    · have h1 : countForUser [t] uid = 0 := by
        simp [countForUser, List.filter_cons, hc]
      omega

theorem find?_map_upsertRow (t : RefreshToken) (store : List RefreshToken) :
    (store.map (upsertRow t)).find? (fun r => r.userID == t.userID)
      = (store.find? (fun r => r.userID == t.userID)).map (upsertRow t) := by
  induction store with
  | nil => rfl
  | cons h tl ih =>
    cases hc : (h.userID == t.userID) with
    | true => simp [List.find?_cons, upsertRow_userID, hc]
    | false => simp [List.find?_cons, upsertRow_userID, hc, ih]

theorem find?_append_singleton (store : List RefreshToken) (t : RefreshToken)
    (p : RefreshToken → Bool) (hnone : store.find? p = none) (hpt : p t = true) :
    (store ++ [t]).find? p = some t := by
  induction store with
  | nil => simp [List.find?_cons, hpt]
  | cons h tl ih =>
    cases hc : p h with
    | true => rw [List.find?_cons, hc] at hnone; exact absurd hnone (by simp)
    | false =>
      rw [List.find?_cons, hc] at hnone
      simpa [List.find?_cons, hc] using ih hnone

theorem get_after_upsert (store : List RefreshToken) (t : RefreshToken) :
    ∃ r, getRefreshTokenByUserID (upsertRefreshToken store t) t.userID = .ok r ∧
      r.token = t.token ∧ r.expiresAt = t.expiresAt ∧ r.isRevoked = t.isRevoked := by
  unfold upsertRefreshToken
  by_cases hany : store.any (fun r => r.userID == t.userID) = true
  · rw [if_pos hany]
    have hsome : (store.find? (fun r => r.userID == t.userID)).isSome := by
      rw [List.find?_isSome]
      exact List.any_eq_true.mp hany
    obtain ⟨r0, hr0⟩ := Option.isSome_iff_exists.mp hsome
    have hpr0 := List.find?_some hr0
    have hmap : (store.map (upsertRow t)).find? (fun r => r.userID == t.userID)
        = some (upsertRow t r0) := by
      rw [find?_map_upsertRow, hr0]; rfl
    refine ⟨upsertRow t r0, ?_, ?_, ?_, ?_⟩ <;>
      simp [getRefreshTokenByUserID, hmap, upsertRow, hpr0]
  · rw [if_neg hany]
    have hany' : store.any (fun r => r.userID == t.userID) = false := by
      simpa using hany
    have hnone : store.find? (fun r => r.userID == t.userID) = none := by
      rw [List.find?_eq_none]
      intro x hx
      have hx2 := List.any_eq_false.mp hany' x hx
      simpa using hx2
    have happ : (store ++ [t]).find? (fun r => r.userID == t.userID) = some t := by
      exact find?_append_singleton store t _ hnone (by simp)
    exact ⟨t, by simp [getRefreshTokenByUserID, happ], rfl, rfl, rfl⟩

/-! ## Claim theorems: session manager -/

/-- **C1**: the token store holds at most one refresh-token record per
user (the upsert is keyed on user id and replaces the prior record),
and after a second refresh token is issued for the same user,
validating the previously issued refresh token fails with the mismatch
error. -/
theorem refresh_single_slot_c1
    (store : List RefreshToken) (t : RefreshToken)
    (parse : String → Except GoError ParsedJwt) (u : User)
    (tok1 tok2 : String) (now1 now2 now3 : Int)
    (hcount : ∀ uid, countForUser store uid ≤ 1)
    (hdist : tok1 ≠ tok2)
    (hparse : parse tok1 = .ok ⟨true, true, ⟨some u.id, some u.userType⟩⟩) :
    (∀ uid, countForUser (upsertRefreshToken store t) uid ≤ 1) ∧
    validateRefreshToken parse now3
        (generateRefreshToken tok2 now2 (generateRefreshToken tok1 now1 store u).2 u).2 tok1
      = some (refreshMismatchErr u.id) := by
  constructor
  · intro uid
    exact countForUser_upsert_le store t uid (hcount uid)
  · obtain ⟨r, hget, htok, _, _⟩ :=
      get_after_upsert (generateRefreshToken tok1 now1 store u).2
        { userID := u.id, token := tok2, expiresAt := now2 + refreshTokenTTLSecs,
          isRevoked := false, createdAt := now2, updatedAt := now2 }
    simp only [generateRefreshToken] at hget ⊢
    simp only [validateRefreshToken, hparse, Bool.not_true, Bool.false_eq_true,
      if_false, hget, htok]
    rw [if_pos (Ne.symm hdist)]

/-- **C2**: for a refresh token that passes signature and claim-shape
checks, `ValidateRefreshToken` fetches the stored record by the
embedded user id and fails with the mismatch error when the stored
string differs, the expired error when the stored expiry is in the
past, the revoked error when the revoked flag is set, and succeeds
exactly when none of these hold. -/
theorem validateRefreshToken_store_checks_c2
    (parse : String → Except GoError ParsedJwt) (now : Int)
    (store : List RefreshToken) (tok uid uty : String) (db : RefreshToken)
    (hparse : parse tok = .ok ⟨true, true, ⟨some uid, some uty⟩⟩)
    (hget : getRefreshTokenByUserID store uid = .ok db) :
    (db.token ≠ tok → validateRefreshToken parse now store tok = some (refreshMismatchErr uid)) ∧
    (db.token = tok → now > db.expiresAt →
        validateRefreshToken parse now store tok = some (refreshExpiredErr uid)) ∧
    (db.token = tok → ¬ now > db.expiresAt → db.isRevoked = true →
        validateRefreshToken parse now store tok = some (refreshRevokedErr uid)) ∧
    (validateRefreshToken parse now store tok = none ↔
        db.token = tok ∧ ¬ now > db.expiresAt ∧ db.isRevoked = false) := by
  simp only [validateRefreshToken, hparse, Bool.not_true, Bool.false_eq_true, if_false, hget]
  refine ⟨?_, ?_, ?_, ?_⟩
  · intro hne; rw [if_pos hne]
  · intro heq hexp
    rw [if_neg (by simpa [heq] using (absurd · rfl)), if_pos hexp]
  · intro heq hexp hrev
    rw [if_neg (by simpa [heq] using (absurd · rfl)), if_neg hexp, if_pos hrev]
  · constructor
    · intro hnone
      by_cases h1 : db.token = tok
      · by_cases h2 : now > db.expiresAt
        · rw [if_neg (by simpa [h1] using (absurd · rfl)), if_pos h2] at hnone
          exact absurd hnone (by simp)
        · by_cases h3 : db.isRevoked
          · rw [if_neg (by simpa [h1] using (absurd · rfl)), if_neg h2, if_pos h3] at hnone
            exact absurd hnone (by simp)
          · exact ⟨h1, h2, by simpa using h3⟩
      · rw [if_pos h1] at hnone
        exact absurd hnone (by simp)
    · rintro ⟨h1, h2, h3⟩
      rw [if_neg (by simpa [h1] using (absurd · rfl)), if_neg h2, if_neg (by simp [h3])]

/-- **C3**: `ValidateAccessToken` never consults the token store — its
result is identical under any two store states; it fails when parsing
fails (wrong signing method or signature), fails when `user_id` or
`user_type` is absent, and succeeds otherwise (given the jwt-library
guarantee that a parsed token is valid with castable claims). -/
theorem validateAccessToken_stateless_c3
    (parse : String → Except GoError ParsedJwt) (tok : String)
    (store store2 : List RefreshToken) (hlib : JwtLibSound parse) :
    (validateAccessToken parse store tok = validateAccessToken parse store2 tok) ∧
    (∀ e, parse tok = .error e →
        validateAccessToken parse store tok =
          some (.appError "JWT_VALIDATION" "failed to parse access token" e)) ∧
    (∀ t, parse tok = .ok t → t.claims.userId = none →
        validateAccessToken parse store tok =
          some (.appErrorNil "JWT_VALIDATION" "user_id claim is missing")) ∧
    (∀ t u, parse tok = .ok t → t.claims.userId = some u → t.claims.userType = none →
        validateAccessToken parse store tok =
          some (.appErrorNil "JWT_VALIDATION" "user_type claim is missing")) ∧
    (∀ t u v, parse tok = .ok t → t.claims.userId = some u → t.claims.userType = some v →
        validateAccessToken parse store tok = none) := by
  refine ⟨rfl, ?_, ?_, ?_, ?_⟩
  · intro e he; simp [validateAccessToken, he]
  · intro t ht hu
    obtain ⟨hv, hc⟩ := hlib tok t ht
    simp [validateAccessToken, ht, hv, hc, hu]
  · intro t u ht hu hty
    obtain ⟨hv, hc⟩ := hlib tok t ht
    simp [validateAccessToken, ht, hv, hc, hu, hty]
  · intro t u v ht hu hty
    obtain ⟨hv, hc⟩ := hlib tok t ht
    simp [validateAccessToken, ht, hv, hc, hu, hty]

/-- Witness for `refresh_single_slot_c1` at a concrete store, user and
parse oracle. -/
theorem refresh_single_slot_c1_witness :
    (∀ uid, countForUser (upsertRefreshToken [] ⟨"u1", "t1", 100, false, 0, 0⟩) uid ≤ 1) ∧
    validateRefreshToken
        (fun s => if s = "t1" ∨ s = "t2" then .ok ⟨true, true, ⟨some "u1", some "customer"⟩⟩
                  else .error (.simple "bad signature"))
        5
        (generateRefreshToken "t2" 1
          (generateRefreshToken "t1" 0 [] ⟨"u1", "customer", "alice", "h", "a@x.com", 0, 0⟩).2
          ⟨"u1", "customer", "alice", "h", "a@x.com", 0, 0⟩).2
        "t1"
      = some (refreshMismatchErr "u1") :=
  refresh_single_slot_c1 [] ⟨"u1", "t1", 100, false, 0, 0⟩
    (fun s => if s = "t1" ∨ s = "t2" then .ok ⟨true, true, ⟨some "u1", some "customer"⟩⟩
              else .error (.simple "bad signature"))
    ⟨"u1", "customer", "alice", "h", "a@x.com", 0, 0⟩
    "t1" "t2" 0 1 5
    (fun _ => Nat.zero_le 1)
    (by decide)
    (by rfl)

/-- Witness for `validateRefreshToken_store_checks_c2` at a concrete
store holding a matching, unexpired, unrevoked record. -/
theorem validateRefreshToken_store_checks_c2_witness :
    (RefreshToken.token ⟨"u1", "T", 100, false, 0, 0⟩ ≠ "T" →
        validateRefreshToken (fun _ => .ok ⟨true, true, ⟨some "u1", some "customer"⟩⟩) 5
          [⟨"u1", "T", 100, false, 0, 0⟩] "T" = some (refreshMismatchErr "u1")) ∧
    (RefreshToken.token ⟨"u1", "T", 100, false, 0, 0⟩ = "T" →
        (5 : Int) > RefreshToken.expiresAt ⟨"u1", "T", 100, false, 0, 0⟩ →
        validateRefreshToken (fun _ => .ok ⟨true, true, ⟨some "u1", some "customer"⟩⟩) 5
          [⟨"u1", "T", 100, false, 0, 0⟩] "T" = some (refreshExpiredErr "u1")) ∧
    (RefreshToken.token ⟨"u1", "T", 100, false, 0, 0⟩ = "T" →
        ¬ (5 : Int) > RefreshToken.expiresAt ⟨"u1", "T", 100, false, 0, 0⟩ →
        RefreshToken.isRevoked ⟨"u1", "T", 100, false, 0, 0⟩ = true →
        validateRefreshToken (fun _ => .ok ⟨true, true, ⟨some "u1", some "customer"⟩⟩) 5
          [⟨"u1", "T", 100, false, 0, 0⟩] "T" = some (refreshRevokedErr "u1")) ∧
    (validateRefreshToken (fun _ => .ok ⟨true, true, ⟨some "u1", some "customer"⟩⟩) 5
          [⟨"u1", "T", 100, false, 0, 0⟩] "T" = none ↔
        RefreshToken.token ⟨"u1", "T", 100, false, 0, 0⟩ = "T" ∧
        ¬ (5 : Int) > RefreshToken.expiresAt ⟨"u1", "T", 100, false, 0, 0⟩ ∧
        RefreshToken.isRevoked ⟨"u1", "T", 100, false, 0, 0⟩ = false) :=
  validateRefreshToken_store_checks_c2
    (fun _ => .ok ⟨true, true, ⟨some "u1", some "customer"⟩⟩) 5
    [⟨"u1", "T", 100, false, 0, 0⟩] "T" "u1" "customer" ⟨"u1", "T", 100, false, 0, 0⟩
    (by rfl) (by rfl)

/-- Witness for `validateAccessToken_stateless_c3` at a concrete parse
oracle and two different stores. -/
theorem validateAccessToken_stateless_c3_witness :
    (validateAccessToken (fun _ => .ok ⟨true, true, ⟨some "u1", some "customer"⟩⟩)
        [] "T" =
      validateAccessToken (fun _ => .ok ⟨true, true, ⟨some "u1", some "customer"⟩⟩)
        [⟨"u1", "T", 100, true, 0, 0⟩] "T") ∧
    (∀ e, (fun (_ : String) => (.ok ⟨true, true, ⟨some "u1", some "customer"⟩⟩ :
            Except GoError ParsedJwt)) "T" = .error e →
        validateAccessToken (fun _ => .ok ⟨true, true, ⟨some "u1", some "customer"⟩⟩) [] "T" =
          some (.appError "JWT_VALIDATION" "failed to parse access token" e)) ∧
    (∀ t, (fun (_ : String) => (.ok ⟨true, true, ⟨some "u1", some "customer"⟩⟩ :
            Except GoError ParsedJwt)) "T" = .ok t → t.claims.userId = none →
        validateAccessToken (fun _ => .ok ⟨true, true, ⟨some "u1", some "customer"⟩⟩) [] "T" =
          some (.appErrorNil "JWT_VALIDATION" "user_id claim is missing")) ∧
    (∀ t u, (fun (_ : String) => (.ok ⟨true, true, ⟨some "u1", some "customer"⟩⟩ :
            Except GoError ParsedJwt)) "T" = .ok t → t.claims.userId = some u →
        t.claims.userType = none →
        validateAccessToken (fun _ => .ok ⟨true, true, ⟨some "u1", some "customer"⟩⟩) [] "T" =
          some (.appErrorNil "JWT_VALIDATION" "user_type claim is missing")) ∧
    (∀ t u v, (fun (_ : String) => (.ok ⟨true, true, ⟨some "u1", some "customer"⟩⟩ :
            Except GoError ParsedJwt)) "T" = .ok t → t.claims.userId = some u →
        t.claims.userType = some v →
        validateAccessToken (fun _ => .ok ⟨true, true, ⟨some "u1", some "customer"⟩⟩) [] "T" = none) :=
  validateAccessToken_stateless_c3
    (fun _ => .ok ⟨true, true, ⟨some "u1", some "customer"⟩⟩) "T"
    [] [⟨"u1", "T", 100, true, 0, 0⟩]
    (fun _ t h => by cases h; exact ⟨rfl, rfl⟩)

/-! ## Claim theorems: Register uniqueness (C4) -/

theorem register_customer_eq (deps : AuthDeps) (validate : RegisterRequest → Option GoError)
    (newUUID : String) (now : Int) (req : RegisterRequest)
    (hval : validate req = none) (htype : goToLower (goTrimSpace req.userType) = "customer") :
    register deps validate newUUID now req =
      match uniquenessOutcome (deps.custGetByEmail req.email)
          (deps.custGetByUsername req.username) with
      | some e => .error e
      | none => registerPersist deps newUUID now "customer" req := by
  simp [register, hval, htype]

theorem register_seller_eq (deps : AuthDeps) (validate : RegisterRequest → Option GoError)
    (newUUID : String) (now : Int) (req : RegisterRequest)
    (hval : validate req = none) (htype : goToLower (goTrimSpace req.userType) = "seller") :
    register deps validate newUUID now req =
      match uniquenessOutcome (deps.sellGetByEmail req.email)
          (deps.sellGetByUsername req.username) with
      | some e => .error e
      | none => registerPersist deps newUUID now "seller" req := by
  simp [register, hval, htype]

/-- **C4 (amended)**: for a shape-valid registration with declared role
r, `Register` consults only role r's probes (cross-role state is
irrelevant) and fails with the duplicate-identity error exactly when
the email probe or the username probe hits; but the
uniqueness-check-failed error is raised exactly when the *username*
probe (the probe run last) errors with a non-not-found error — a
non-not-found error from the email probe alone is masked: when the
username probe then reports not-found, registration proceeds. -/
theorem register_uniqueness_c4
    (deps : AuthDeps) (validate : RegisterRequest → Option GoError)
    (newUUID : String) (now : Int) (req : RegisterRequest)
    (hval : validate req = none) :
    (goToLower (goTrimSpace req.userType) = "customer" →
      (∀ f g, register { deps with sellGetByEmail := f, sellGetByUsername := g }
          validate newUUID now req = register deps validate newUUID now req) ∧
      (∀ c, deps.custGetByEmail req.email = .ok c →
        register deps validate newUUID now req =
          .error (.appErrorNil "DUPLICATE" "email already exists")) ∧
      (∀ e1 c, deps.custGetByEmail req.email = .error e1 →
        deps.custGetByUsername req.username = .ok c →
        register deps validate newUUID now req =
          .error (.appErrorNil "DUPLICATE" "username already exists")) ∧
      (∀ e1 e2, deps.custGetByEmail req.email = .error e1 →
        deps.custGetByUsername req.username = .error e2 → e2.isNotFound = false →
        register deps validate newUUID now req =
          .error (.appError "REPO" "uniqueness check failed" e2)) ∧
      (∀ e1 e2, deps.custGetByEmail req.email = .error e1 →
        deps.custGetByUsername req.username = .error e2 → e2.isNotFound = true →
        register deps validate newUUID now req =
          registerPersist deps newUUID now "customer" req)) ∧
    (goToLower (goTrimSpace req.userType) = "seller" →
      (∀ f g, register { deps with custGetByEmail := f, custGetByUsername := g }
          validate newUUID now req = register deps validate newUUID now req) ∧
      (∀ s, deps.sellGetByEmail req.email = .ok s →
        register deps validate newUUID now req =
          .error (.appErrorNil "DUPLICATE" "email already exists")) ∧
      (∀ e1 s, deps.sellGetByEmail req.email = .error e1 →
        deps.sellGetByUsername req.username = .ok s →
        register deps validate newUUID now req =
          .error (.appErrorNil "DUPLICATE" "username already exists")) ∧
      (∀ e1 e2, deps.sellGetByEmail req.email = .error e1 →
        deps.sellGetByUsername req.username = .error e2 → e2.isNotFound = false →
        register deps validate newUUID now req =
          .error (.appError "REPO" "uniqueness check failed" e2)) ∧
      (∀ e1 e2, deps.sellGetByEmail req.email = .error e1 →
        deps.sellGetByUsername req.username = .error e2 → e2.isNotFound = true →
        register deps validate newUUID now req =
          registerPersist deps newUUID now "seller" req)) := by
  constructor
  · intro htype
    refine ⟨?_, ?_, ?_, ?_, ?_⟩
    · intro f g
      rw [register_customer_eq _ validate newUUID now req hval htype,
          register_customer_eq deps validate newUUID now req hval htype]
      rfl
    · intro c hc
      rw [register_customer_eq deps validate newUUID now req hval htype]
      simp [uniquenessOutcome, hc]
    · intro e1 c h1 h2
      rw [register_customer_eq deps validate newUUID now req hval htype]
      simp [uniquenessOutcome, h1, h2]
    · intro e1 e2 h1 h2 h3
      rw [register_customer_eq deps validate newUUID now req hval htype]
      simp [uniquenessOutcome, h1, h2, h3]
    · intro e1 e2 h1 h2 h3
      rw [register_customer_eq deps validate newUUID now req hval htype]
      simp [uniquenessOutcome, h1, h2, h3]
  · intro htype
    refine ⟨?_, ?_, ?_, ?_, ?_⟩
    · intro f g
      rw [register_seller_eq _ validate newUUID now req hval htype,
          register_seller_eq deps validate newUUID now req hval htype]
      rfl
    · intro s hs
      rw [register_seller_eq deps validate newUUID now req hval htype]
      simp [uniquenessOutcome, hs]
    · intro e1 s h1 h2
      rw [register_seller_eq deps validate newUUID now req hval htype]
      simp [uniquenessOutcome, h1, h2]
    · intro e1 e2 h1 h2 h3
      rw [register_seller_eq deps validate newUUID now req hval htype]
      simp [uniquenessOutcome, h1, h2, h3]
    · intro e1 e2 h1 h2 h3
      rw [register_seller_eq deps validate newUUID now req hval htype]
      simp [uniquenessOutcome, h1, h2, h3]

/-- **C4 counterexample** to the claim as stated: the customer email
probe fails with `ErrInternal` — an error other than not-found — yet
`Register` succeeds with a token pair instead of failing with the
uniqueness-check-failed error, because the username probe's not-found
overwrote the email probe's error. -/
theorem register_uniqueness_c4_counterexample :
    fixtureDepsEmailProbeDown.custGetByEmail fixtureRegisterReq.email = .error .errInternal ∧
    GoError.isNotFound .errInternal = false ∧
    register fixtureDepsEmailProbeDown (fun _ => none) "uid-1" 0 fixtureRegisterReq =
      .ok { accessToken := "acc", refreshToken := "ref" } :=
  ⟨rfl, rfl, rfl⟩

/-- Witness for `register_uniqueness_c4`: at a concrete dependency set
whose email probe hits, registration is rejected with the duplicate
error. -/
theorem register_uniqueness_c4_witness :
    register fixtureDepsDupEmail (fun _ => none) "uid-1" 0 fixtureRegisterReq =
      .error (.appErrorNil "DUPLICATE" "email already exists") :=
  ((register_uniqueness_c4 fixtureDepsDupEmail (fun _ => none) "uid-1" 0
      fixtureRegisterReq rfl).1 (by rfl)).2.1 fixtureCustomer rfl

/-! ## Claim theorems: Login identifier handling (C5) -/

/-- **C5**: for a shape-valid login request, `Login` fails with the
ambiguous-identifier error when both username and email are supplied
and with the missing-identifier error when neither is — in both cases
the result is the same under any collaborator set, i.e. before any
datastore lookup — and a lookup miss and a password-hash mismatch both
produce the same invalid-credentials error value. -/
theorem login_identifier_c5
    (deps deps2 : AuthDeps) (validate : LoginRequest → Option GoError)
    (req : LoginRequest) (hval : validate req = none)
    (htype : goToLower (goTrimSpace req.userType) = "customer" ∨
             goToLower (goTrimSpace req.userType) = "seller") :
    (goTrimSpace req.username ≠ "" → goTrimSpace req.email ≠ "" →
        login deps validate req =
          .error (.appErrorNil "VALIDATION" "provide either username or email, not both") ∧
        login deps validate req = login deps2 validate req) ∧
    (goTrimSpace req.username = "" → goTrimSpace req.email = "" →
        login deps validate req =
          .error (.appErrorNil "VALIDATION" "email or username is required") ∧
        login deps validate req = login deps2 validate req) ∧
    (∀ e, goToLower (goTrimSpace req.userType) = "customer" →
        goTrimSpace req.username ≠ "" → goTrimSpace req.email = "" →
        deps.custGetByUsername (goTrimSpace req.username) = .error e → e.isNotFound = true →
        login deps validate req = .error invalidCredentialsErr) ∧
    (∀ c pe, goToLower (goTrimSpace req.userType) = "customer" →
        goTrimSpace req.username ≠ "" → goTrimSpace req.email = "" →
        deps.custGetByUsername (goTrimSpace req.username) = .ok c →
        deps.compareHashPassword c.passwordHash req.password = some pe →
        login deps validate req = .error invalidCredentialsErr) ∧
    (∀ e, goToLower (goTrimSpace req.userType) = "seller" →
        goTrimSpace req.username = "" → goTrimSpace req.email ≠ "" →
        deps.sellGetByEmail (goTrimSpace req.email) = .error e → e.isNotFound = true →
        login deps validate req = .error invalidCredentialsErr) ∧
    (∀ s pe, goToLower (goTrimSpace req.userType) = "seller" →
        goTrimSpace req.username = "" → goTrimSpace req.email ≠ "" →
        deps.sellGetByEmail (goTrimSpace req.email) = .ok s →
        deps.compareHashPassword s.passwordHash req.password = some pe →
        login deps validate req = .error invalidCredentialsErr) := by
  have hty : ¬(goToLower (goTrimSpace req.userType) ≠ "customer" ∧
               goToLower (goTrimSpace req.userType) ≠ "seller") := by
    rcases htype with h | h <;> simp [h]
  refine ⟨?_, ?_, ?_, ?_, ?_, ?_⟩
  · intro hu he
    constructor
    · simp only [login, hval]
      rw [if_neg hty, if_pos ⟨hu, he⟩]
    · simp only [login, hval]
      rw [if_neg hty, if_pos ⟨hu, he⟩, if_neg hty, if_pos ⟨hu, he⟩]
  · intro hu he
    constructor
    · simp only [login, hval]
      rw [if_neg hty, if_neg (by rintro ⟨h1, _⟩; exact h1 hu), if_pos ⟨hu, he⟩]
    · simp only [login, hval]
      rw [if_neg hty, if_neg (by rintro ⟨h1, _⟩; exact h1 hu), if_pos ⟨hu, he⟩,
          if_neg hty, if_neg (by rintro ⟨h1, _⟩; exact h1 hu), if_pos ⟨hu, he⟩]
  · intro e htc hu he hlook hnf
    simp only [login, hval]
    rw [if_neg hty, if_neg (by rintro ⟨_, h2⟩; exact h2 he),
        if_neg (by rintro ⟨h1, _⟩; exact hu h1), if_pos htc, if_pos hu, if_pos hu, hlook]
    simp [hnf, invalidCredentialsErr]
  · intro c pe htc hu he hlook hcmp
    simp only [login, hval]
    rw [if_neg hty, if_neg (by rintro ⟨_, h2⟩; exact h2 he),
        if_neg (by rintro ⟨h1, _⟩; exact hu h1), if_pos htc, if_pos hu, if_pos hu, hlook]
    simp [hcmp, invalidCredentialsErr]
  · intro e hts hu he hlook hnf
    have htc : goToLower (goTrimSpace req.userType) ≠ "customer" := by
      rw [hts]; decide
    simp only [login, hval]
    rw [if_neg hty, if_neg (by rintro ⟨h1, _⟩; exact h1 hu),
        if_neg (by rintro ⟨_, h2⟩; exact he h2), if_neg htc, if_neg (by simpa using hu),
        if_neg (by simpa using hu), hlook]
    simp [hnf, invalidCredentialsErr]
  · intro s pe hts hu he hlook hcmp
    have htc : goToLower (goTrimSpace req.userType) ≠ "customer" := by
      rw [hts]; decide
    simp only [login, hval]
    rw [if_neg hty, if_neg (by rintro ⟨h1, _⟩; exact h1 hu),
        if_neg (by rintro ⟨_, h2⟩; exact he h2), if_neg htc, if_neg (by simpa using hu),
        if_neg (by simpa using hu), hlook]
    simp [hcmp, invalidCredentialsErr]

/-- Witness for `login_identifier_c5`: both identifiers supplied is
rejected with the ambiguous-identifier error under the miss-everything
collaborators. -/
theorem login_identifier_c5_witness :
    login fixtureDeps (fun _ => none)
        { email := "a@x.com", username := "alice123", password := "pw",
          userType := "customer" } =
      .error (.appErrorNil "VALIDATION" "provide either username or email, not both") :=
  ((login_identifier_c5 fixtureDeps fixtureDeps (fun _ => none)
      { email := "a@x.com", username := "alice123", password := "pw",
        userType := "customer" }
      rfl (Or.inl (by decide))).1 (by decide) (by decide)).1

/-! ## Claim theorems: UpdateAuth password handling (C6) -/

/-- **C6**: `UpdateAuth` with a non-empty new password and an empty old
password fails with a validation error, and with an incorrect old
password fails with the invalid-credentials error; in both cases the
state (stored password hash, username, email) is returned unchanged. -/
theorem updateAuth_password_c6
    (parse : String → Except GoError ParsedJwt) (emailOk : String → Bool)
    (compareHash : String → String → Option GoError)
    (genHash : String → Except GoError String)
    (now : Int) (st : AuthState) (tokenString userID : String)
    (req : UpdateAuthRequest) :
    (req.newPassword ≠ "" → req.oldPassword = "" →
      updateAuth parse emailOk compareHash genHash now st tokenString userID req =
        (some (.appError "VALIDATION" "invalid update data"
          (.simple "validator.ValidationErrors")), st)) ∧
    (∀ userByID e, validUpdateAuthRequest emailOk req = true →
      validateRefreshToken parse now st.tokens tokenString = none →
      userRepoGetByID st.users userID = .ok userByID →
      req.newPassword ≠ "" →
      compareHash userByID.passwordHash req.oldPassword = some e →
      updateAuth parse emailOk compareHash genHash now st tokenString userID req =
        (some (.appErrorNil "INVALID_CREDENTIALS" "old password incorrect"), st)) := by
  constructor
  · intro hnew hold
    have hv : validUpdateAuthRequest emailOk req = false := by
      simp [validUpdateAuthRequest, hold, hnew]
    simp [updateAuth, hv]
  · intro userByID e hvalid hrt hget hnew hcmp
    have hold : req.oldPassword ≠ "" := by
      intro hcontra
      simp [validUpdateAuthRequest, hcontra, hnew] at hvalid
    simp [updateAuth, hvalid, hrt, hget, hnew, hold, hcmp]

/-- Witness for `updateAuth_password_c6`: an incorrect old password at
a concrete state yields the invalid-credentials error and an unchanged
state. -/
theorem updateAuth_password_c6_witness :
    updateAuth fixtureParse (fun _ => false) (fun _ _ => some (.simple "hash mismatch"))
        (fun p => .ok ("h:" ++ p)) 0 fixtureAuthState "T" "u1"
        { email := "", username := "", oldPassword := "x", newPassword := "12345678",
          refreshToken := "T" } =
      (some (.appErrorNil "INVALID_CREDENTIALS" "old password incorrect"), fixtureAuthState) :=
  (updateAuth_password_c6 fixtureParse (fun _ => false)
      (fun _ _ => some (.simple "hash mismatch")) (fun p => .ok ("h:" ++ p)) 0
      fixtureAuthState "T" "u1"
      { email := "", username := "", oldPassword := "x", newPassword := "12345678",
        refreshToken := "T" }).2
    fixtureUser (.simple "hash mismatch") (by decide) (by rfl) (by rfl) (by decide) rfl

/-! ## Claim theorems: DeleteUser (C7) -/

theorem revokeRefreshToken_fst (tokens : List RefreshToken) (now : Int) (uid : String) :
    (revokeRefreshToken tokens now uid).1 = none := by
  unfold revokeRefreshToken getRefreshTokenByUserID
  cases h : tokens.find? (fun r => r.userID == uid) <;> simp [GoError.isNotFound]

/-- **C7**: `DeleteUser` succeeds in revocation's absence — with no
token-store record the revoke step is a no-op and the identity
deletion still proceeds — and it fails with the not-found error exactly
when the identity row is already gone (the delete affects zero rows). -/
theorem deleteUser_revocation_c7 (now : Int) (st : AuthState) (uid : String) :
    (getRefreshTokenByUserID st.tokens uid = .error .errNotFound →
      st.users.any (fun u => u.id == uid) = true →
      (deleteUser now st uid).1 = none) ∧
    ((deleteUser now st uid).1 =
        some (.appError "NOT_FOUND" "user not found"
          (.appError "NOT_DELETED" "delete returned 0 affected rows" .errNotFound)) ↔
      st.users.any (fun u => u.id == uid) = false) := by
  constructor
  · intro _ hexists
    simp [deleteUser, revokeRefreshToken_fst, userRepoDelete, hexists]
  · cases hexists : st.users.any (fun u => u.id == uid) with
    | true =>
      simp [deleteUser, revokeRefreshToken_fst, userRepoDelete, hexists]
    | false =>
      simp [deleteUser, revokeRefreshToken_fst, userRepoDelete, hexists,
        GoError.isNotFound]

/-- Witness for `deleteUser_revocation_c7`: deleting the only user with
an empty token store succeeds. -/
theorem deleteUser_revocation_c7_witness :
    (deleteUser 0 { users := [fixtureUser], tokens := [] } "u1").1 = none :=
  (deleteUser_revocation_c7 0 { users := [fixtureUser], tokens := [] } "u1").1
    (by rfl) (by decide)

/-! ## Claim theorems: catalog paging clamps (C8) -/

theorem clampLimit_idem (l : Int) : clampLimit (clampLimit l) = clampLimit l := by
  unfold clampLimit
  by_cases h : l < 0 ∨ l > 100
  · rw [if_pos h]; norm_num
  · rw [if_neg h, if_neg h]

theorem clampOffset_idem (o : Int) : clampOffset (clampOffset o) = clampOffset o := by
  unfold clampOffset
  by_cases h : o < 0
  · rw [if_pos h]; norm_num
  · rw [if_neg h, if_neg h]

/-- **C8**: the catalog List operations never fail on out-of-range
paging inputs: the repository is always called with the clamped
values (listing at any limit/offset equals listing at the clamped
pair), a limit outside `[0, 100]` is reset to the default `40` (in
particular `limit = 500`), a negative offset is clamped to `0` (in
particular `offset = -5`), and whenever the adapter succeeds on the
clamped values the List call succeeds. -/
theorem list_clamping_c8
    (adapterP : String → Int → Int → Except GoError (List Product))
    (adapterC : Int → Int → Except GoError (List Category))
    (cid : String) (limit offset : Int) (hcid : cid ≠ "") :
    (productUsecaseList adapterP cid limit offset =
      productUsecaseList adapterP cid (clampLimit limit) (clampOffset offset)) ∧
    (categoryUsecaseList adapterC limit offset =
      categoryUsecaseList adapterC (clampLimit limit) (clampOffset offset)) ∧
    clampLimit 500 = 40 ∧ clampOffset (-5) = 0 ∧
    (∀ ps, adapterP cid (clampLimit limit) (clampOffset offset) = .ok ps →
      productUsecaseList adapterP cid limit offset = .ok (ps.map productToResponse)) ∧
    (∀ cs, adapterC (clampLimit limit) (clampOffset offset) = .ok cs →
      categoryUsecaseList adapterC limit offset = .ok (cs.map categoryToDTO)) := by
  refine ⟨?_, ?_, by norm_num [clampLimit], by norm_num [clampOffset], ?_, ?_⟩
  · simp [productUsecaseList, clampLimit_idem, clampOffset_idem]
  · simp [categoryUsecaseList, clampLimit_idem, clampOffset_idem]
  · intro ps hok
    simp [productUsecaseList, hcid, hok]
  · intro cs hok
    simp [categoryUsecaseList, hok]

/-- Witness for `list_clamping_c8` at `limit = 500`, `offset = -5` and
always-succeeding adapters. -/
theorem list_clamping_c8_witness :
    productUsecaseList (fun _ _ _ => .ok []) "c1" 500 (-5) = .ok [] ∧
    categoryUsecaseList (fun _ _ => .ok []) 500 (-5) = .ok [] ∧
    clampLimit 500 = 40 ∧ clampOffset (-5) = 0 :=
  ⟨(list_clamping_c8 (fun _ _ _ => .ok []) (fun _ _ => .ok []) "c1" 500 (-5)
      (by decide)).2.2.2.2.1 [] rfl,
   (list_clamping_c8 (fun _ _ _ => .ok []) (fun _ _ => .ok []) "c1" 500 (-5)
      (by decide)).2.2.2.2.2 [] rfl,
   (list_clamping_c8 (fun _ _ _ => .ok []) (fun _ _ => .ok []) "c1" 500 (-5)
      (by decide)).2.2.1,
   (list_clamping_c8 (fun _ _ _ => .ok []) (fun _ _ => .ok []) "c1" 500 (-5)
      (by decide)).2.2.2.1⟩

/-! ## Claim theorems: zero-rows-affected update/delete (C9) -/

theorem map_update_id_of_not_any (tbl : List Product) (p : Product)
    (h : tbl.any (fun r => r.id == p.id) = false) :
    tbl.map (fun r =>
      if r.id == p.id then
        { r with title := p.title, description := p.description, price := p.price,
                 updatedAt := p.updatedAt, categoryID := p.categoryID,
                 isActive := p.isActive }
      else r) = tbl := by
  induction tbl with
  | nil => rfl
  | cons x tl ih =>
    rw [List.any_cons] at h
    obtain ⟨h1, h2⟩ := Bool.or_eq_false_iff.mp h
    rw [List.map_cons]
    congr 1
    · simp [h1]
    · exact ih h2

theorem filter_ne_of_not_any (tbl : List Product) (id : String)
    (h : tbl.any (fun r => r.id == id) = false) :
    tbl.filter (fun r => r.id ≠ id) = tbl := by
  induction tbl with
  | nil => rfl
  | cons x tl ih =>
    rw [List.any_cons] at h
    obtain ⟨h1, h2⟩ := Bool.or_eq_false_iff.mp h
    have h1' : x.id ≠ id := by simpa using h1
    rw [List.filter_cons, if_pos (decide_eq_true h1'), ih h2]

/-- **C9**: `productRepository.Update` and `productRepository.Delete`
on a nonexistent row commit and return `nil` — success to the caller,
not a not-found error — leaving the table unchanged. -/
theorem productRepo_zero_rows_c9 (tbl : List Product) (p : Product) (id : String)
    (hupd : tbl.any (fun r => r.id == p.id) = false)
    (hdel : tbl.any (fun r => r.id == id) = false) :
    productRepoUpdate tbl p = (none, tbl) ∧ productRepoDelete tbl id = (none, tbl) := by
  constructor
  · unfold productRepoUpdate
    rw [map_update_id_of_not_any tbl p hupd]
  · unfold productRepoDelete
    rw [filter_ne_of_not_any tbl id hdel]

/-- Witness for `productRepo_zero_rows_c9`: updating and deleting a
nonexistent product id on a one-row table returns success and leaves
the row alone. -/
theorem productRepo_zero_rows_c9_witness :
    productRepoUpdate [⟨"p1", "s1", "t", "d", 1, 0, 0, "c1", true⟩]
        ⟨"p2", "s1", "t2", "d2", 2, 0, 0, "c1", false⟩ =
      (none, [⟨"p1", "s1", "t", "d", 1, 0, 0, "c1", true⟩]) ∧
    productRepoDelete [⟨"p1", "s1", "t", "d", 1, 0, 0, "c1", true⟩] "p2" =
      (none, [⟨"p1", "s1", "t", "d", 1, 0, 0, "c1", true⟩]) :=
  productRepo_zero_rows_c9 _ _ "p2" (by decide) (by decide)

/-! ## Claim theorems: seller rating frame effect (C10) -/

/-- **C10**: a seller profile update always persists the rating column
as set (`Valid: true`): every seller row matching the user id ends with
`rating = some req.rating` — in particular an omitted rating (zero
value `0`) overwrites the previous rating with `0` — whereas a customer
profile update writes omitted fields as NULL (an empty phone becomes
`none`). -/
theorem updateProfile_seller_rating_c10
    (phoneOk dateOk : String → Bool) (parseDate : String → Except GoError Int)
    (now : Int) (st : ProfileState) (uid : String)
    (sreq : SellerProfileRequest) (creq : CustomerProfileRequest)
    (hsv : validSellerProfileRequest sreq = true)
    (hcv : validCustomerProfileRequest phoneOk dateOk creq = true)
    (hphone : creq.phone = "") (hdob : creq.dateBirth = "") :
    ((updateProfile phoneOk dateOk parseDate now st uid "seller" (.seller sreq)).1
        = none ∧
      ∀ r ∈ (updateProfile phoneOk dateOk parseDate now st uid "seller"
          (.seller sreq)).2.sellers,
        r.userID = uid → r.rating = some sreq.rating) ∧
    ((updateProfile phoneOk dateOk parseDate now st uid "customer"
        (.customer creq)).1 = none ∧
      ∀ r ∈ (updateProfile phoneOk dateOk parseDate now st uid "customer"
          (.customer creq)).2.customers,
        r.userID = uid → r.phone = none) := by
  have hs : goToLower (goTrimSpace "seller") = "seller" := rfl
  have hc : goToLower (goTrimSpace "customer") = "customer" := rfl
  constructor
  · constructor
    · simp [updateProfile, hs, hsv]
    · intro r hr hruid
      simp [updateProfile, hs, hsv, sellerRepoUpdateProfile] at hr
      obtain ⟨a, ha, rfl⟩ := hr
      by_cases hau : a.userID = uid
      · simp [hau]
      · simp [hau] at hruid
  · constructor
    · simp [updateProfile, hc, hcv, hdob]
    · intro r hr hruid
      simp [updateProfile, hc, hcv, hdob, customerRepoUpdateProfile] at hr
      obtain ⟨a, ha, rfl⟩ := hr
      by_cases hau : a.userID = uid
      · simp [hau, hphone]
      · simp [hau] at hruid

/-- Witness for `updateProfile_seller_rating_c10`: updating a seller
whose stored rating is 3 with a request omitting the rating (zero
value) succeeds, and the row visible after the update carries rating 0;
the customer half succeeds too. -/
theorem updateProfile_seller_rating_c10_witness :
    (updateProfile (fun _ => true) (fun _ => true) (fun _ => .ok 0) 7
        ⟨[], [], [⟨"u1", none, some 3⟩]⟩ "u1" "seller" (.seller ⟨"", 0⟩)).1 = none ∧
    SellerRow.rating ⟨"u1", none, some 0⟩ =
      some (SellerProfileRequest.rating ⟨"", 0⟩) ∧
    (updateProfile (fun _ => true) (fun _ => true) (fun _ => .ok 0) 7
        ⟨[], [], []⟩ "u1" "customer" (.customer ⟨"", "", "", "", ""⟩)).1 = none :=
  ⟨(updateProfile_seller_rating_c10 (fun _ => true) (fun _ => true) (fun _ => .ok 0) 7
      ⟨[], [], [⟨"u1", none, some 3⟩]⟩ "u1" ⟨"", 0⟩ ⟨"", "", "", "", ""⟩
      (by decide) (by decide) rfl rfl).1.1,
   (updateProfile_seller_rating_c10 (fun _ => true) (fun _ => true) (fun _ => .ok 0) 7
      ⟨[], [], [⟨"u1", none, some 3⟩]⟩ "u1" ⟨"", 0⟩ ⟨"", "", "", "", ""⟩
      (by decide) (by decide) rfl rfl).1.2
     ⟨"u1", none, some 0⟩ (by decide) rfl,
   (updateProfile_seller_rating_c10 (fun _ => true) (fun _ => true) (fun _ => .ok 0) 7
      ⟨[], [], []⟩ "u1" ⟨"", 0⟩ ⟨"", "", "", "", ""⟩
      (by decide) (by decide) rfl rfl).2.1⟩

end Marketplace
